import Mathlib

/-!
Verification of the debug-session orchestration driver
(`examples/rust/debug_with_dbg.rs`).

The driver's externally visible effects (socket transport calls, sleeps,
filesystem removals, child processes) are modelled explicitly:

* each socket command exchange (`send_socket_command`) is one call into a
  transport oracle `Nat → Except DriverError String`, giving the outcome of
  the i-th exchange; the request line written for each exchange and the
  number of sleeps performed are recorded in a `NetState`;
* the filesystem is a predicate `String → Bool` saying which paths exist;
* the compiler (`rustc`) and the control-plane CLI are each one recorded
  process outcome.

Pure helpers (`response_ok`, `json_escape`, substring checks) are translated
directly from the source.
-/

/-- Substring matching on lists of characters: does `s` start with `pat`? -/
def listStartsWith : List Char → List Char → Bool
  | _, [] => true
  | [], _ :: _ => false
  | a :: as, b :: bs => a == b && listStartsWith as bs

/-- Does `pat` occur contiguously somewhere in `s`? -/
def listHasSub : List Char → List Char → Bool
  | [], pat => pat.isEmpty
  | a :: as, pat => listStartsWith (a :: as) pat || listHasSub as pat

/-- Rust `str::contains` on string slices: contiguous substring test. -/
def strContains (s pat : String) : Bool :=
  listHasSub s.toList pat.toList

/-- The response fragments and request lines fixed in the source. -/
def okTrueFrag : String := "\"ok\":true"

def connectedFrag : String := "\"connected\":true"

def pausedFrag : String := "\"status\":\"paused\""

def runningFrag : String := "\"status\":\"running\""

def emptyRowsFrag : String := "\"rows\":[]"

def statusLine : String := "\x7b\"cmd\":\"status\"\x7d"

def pauseLine : String := "\x7b\"cmd\":\"pause\"\x7d"

def closeLine : String := "\x7b\"cmd\":\"close\"\x7d"

def stepLine : String := "\x7b\"cmd\":\"n\"\x7d"

def traceLine : String := "\x7b\"cmd\":\"trace\",\"args\":\"5\"\x7d"

def framesLine : String :=
  "\x7b\"cmd\":\"q\",\"args\":\"SELECT function, file, line FROM frames LIMIT 5\"\x7d"

def threadsLine : String :=
  "\x7b\"cmd\":\"q\",\"args\":\"SELECT id, name FROM threads LIMIT 5\"\x7d"

/-- `response_ok` from the source: a response counts as success when it
contains the literal fragment `"ok":true`. -/
def response_ok (response : String) : Bool :=
  strContains response okTrueFrag

/-- `COMMAND_RETRY_ATTEMPTS` from the source. -/
def COMMAND_RETRY_ATTEMPTS : Nat := 3

/-- `PAUSE_WAIT_POLLS` from the source. -/
def PAUSE_WAIT_POLLS : Nat := 60

/-- The distinct error exits of the driver.  The Rust code reports errors as
formatted strings; each constructor is one distinct `Err(format!(...))` site,
carrying the data interpolated there. -/
inductive DriverError where
  | notFound (path : String)
  | rustcInvokeFailed (msg : String)
  | compileError (stderr : String)
  | missingCliArtifact (path : String)
  | cliInvokeFailed (msg : String)
  | daemonStartError (stderr : String)
  | transportConnectError (sock msg : String)
  | setReadTimeoutFailed (msg : String)
  | setWriteTimeoutFailed (msg : String)
  | writeFailed (msg : String)
  | transportTimeout (sock : String)
  | transportIOError (msg : String)
  | protocolEmptyResponse
  | retryExhausted (label lastResponse : String)
  | waitTimeout (which : String)
  | emptyResult
  deriving Repr, DecidableEq

/-- State of the socket transport as seen from the driver: an oracle giving
the outcome of each successive `send_socket_command` exchange, the number of
exchanges performed so far, the request lines sent so far (in order), and the
number of fixed-interval sleeps performed. -/
structure NetState where
  oracle : Nat → Except DriverError String
  calls : Nat
  sent : List String
  sleeps : Nat

/-- One `send_socket_command` exchange: record the request line and consume
the next oracle outcome. -/
def sendCmd (line : String) (s : NetState) : Except DriverError String × NetState :=
  (s.oracle s.calls,
   { s with calls := s.calls + 1, sent := s.sent ++ [line] })

/-- One `sleep(POLL_INTERVAL)`. -/
def sleepNet (s : NetState) : NetState :=
  { s with sleeps := s.sleeps + 1 }

/-- The loop body of `run_command_retry`, by remaining attempts.  A transport
error propagates at once; an `ok` response returns at once; otherwise the
response is remembered as `lastError` and, when attempts remain (in the
source: `attempt < COMMAND_RETRY_ATTEMPTS`), a sleep precedes the retry. -/
def run_command_retry_loop (label line : String) :
    Nat → String → NetState → Except DriverError String × NetState
  | 0, lastError, s => (.error (.retryExhausted label lastError), s)
  | n + 1, _, s =>
    match sendCmd line s with
    | (.error e, s1) => (.error e, s1)
    | (.ok response, s1) =>
      if response_ok response then
        (.ok response, s1)
      else
        run_command_retry_loop label line n response (if n > 0 then sleepNet s1 else s1)

/-- `run_command_retry` from the source: three attempts, `last_error`
initially empty. -/
def run_command_retry (label line : String) (s : NetState) :
    Except DriverError String × NetState :=
  run_command_retry_loop label line COMMAND_RETRY_ATTEMPTS "" s

/-- The loop body of `wait_for_status`, by remaining polls.  Succeeds when a
status response is ok and contains `"connected":true`; sleeps after every
unsuccessful poll (in the source the sleep follows the check on every
iteration). -/
def wait_for_status_loop : Nat → NetState → Except DriverError String × NetState
  | 0, s => (.error (.waitTimeout "connected"), s)
  | n + 1, s =>
    match sendCmd statusLine s with
    | (.error e, s1) => (.error e, s1)
    | (.ok response, s1) =>
      if response_ok response && strContains response connectedFrag then
        (.ok response, s1)
      else
        wait_for_status_loop n (sleepNet s1)

/-- `wait_for_status` from the source (the `label` argument only affects
logging and is omitted). -/
def wait_for_status (s : NetState) : Except DriverError String × NetState :=
  wait_for_status_loop PAUSE_WAIT_POLLS s

/-- The loop body of `ensure_paused`, by remaining polls.  Succeeds when a
status response is ok and contains `"status":"paused"`; when the response is
ok and contains `"status":"running"` a pause command is sent (its response is
logged, not checked for ok, but a transport error on it propagates); sleeps
after every unsuccessful poll. -/
def ensure_paused_loop : Nat → NetState → Except DriverError Unit × NetState
  | 0, s => (.error (.waitTimeout "paused"), s)
  | n + 1, s =>
    match sendCmd statusLine s with
    | (.error e, s1) => (.error e, s1)
    | (.ok status, s1) =>
      if response_ok status && strContains status pausedFrag then
        (.ok (), s1)
      else if response_ok status && strContains status runningFrag then
        match sendCmd pauseLine s1 with
        | (.error e, s2) => (.error e, s2)
        | (.ok _, s2) => ensure_paused_loop n (sleepNet s2)
      else
        ensure_paused_loop n (sleepNet s1)

/-- `ensure_paused` from the source. -/
def ensure_paused (s : NetState) : Except DriverError Unit × NetState :=
  ensure_paused_loop PAUSE_WAIT_POLLS s

/-! ### The transport internals (`send_socket_command`)

For the error-classification claim the single exchange is modelled at the
level of its five fallible steps, each with its outcome recorded. -/

/-- The `std::io::ErrorKind` values distinguished by the source's read-error
match: `TimedOut` and `WouldBlock` versus everything else. -/
inductive RustErrKind where
  | timedOut
  | wouldBlock
  | otherKind (msg : String)
  deriving Repr, DecidableEq

/-- Outcomes of the socket operations performed by one
`send_socket_command` call, in the order the source performs them. -/
structure SocketOps where
  connect : Except String Unit
  setReadTimeout : Except String Unit
  setWriteTimeout : Except String Unit
  writeAll : Except String Unit
  readLine : Except RustErrKind String

/-- `send_socket_command` from the source: connect, set both timeouts, write
the request line, read one line.  A read failure whose kind is `TimedOut` or
`WouldBlock` becomes the timeout error; any other read failure becomes the
generic read-IO error.  An empty (after trimming) line is the
empty-response protocol error; otherwise the trimmed line is returned. -/
def send_socket_command (socket_path : String) (ops : SocketOps) :
    Except DriverError String :=
  match ops.connect with
  | .error e => .error (.transportConnectError socket_path e)
  | .ok _ =>
  match ops.setReadTimeout with
  | .error e => .error (.setReadTimeoutFailed e)
  | .ok _ =>
  match ops.setWriteTimeout with
  | .error e => .error (.setWriteTimeoutFailed e)
  | .ok _ =>
  match ops.writeAll with
  | .error e => .error (.writeFailed e)
  | .ok _ =>
  match ops.readLine with
  | .error RustErrKind.timedOut => .error (.transportTimeout socket_path)
  | .error RustErrKind.wouldBlock => .error (.transportTimeout socket_path)
  | .error (RustErrKind.otherKind msg) => .error (.transportIOError msg)
  | .ok line =>
    if (line.trim).isEmpty then .error .protocolEmptyResponse
    else .ok line.trim

/-! ### Filesystem, processes, and the session driver -/

/-- Driver state: which filesystem paths exist, plus the transport state. -/
structure St where
  fs : String → Bool
  net : NetState

/-- `fs::remove_file`: best-effort removal, the result is discarded by every
caller; the path simply stops existing. -/
def remove_file (p : String) (fs : String → Bool) : String → Bool :=
  fun q => if q = p then false else fs q

/-- The run configuration (paths only; all fields the driver reads). -/
structure RunConfig where
  workspace_root : String
  dbg_sock : String
  dbg_events_db : String
  target_src : String
  target_bin : String

/-- Outcome of spawning an external process: the spawn itself can fail, or
the process finishes with a success flag, stdout and stderr. -/
inductive ProcResult where
  | invokeError (msg : String)
  | finished (success : Bool) (stdout stderr : String)

/-- Recorded outcomes of the two external processes the driver may spawn. -/
structure ExtProc where
  rustc : ProcResult
  cli : ProcResult

/-- `close_session` from the source: if the socket path does not exist,
return success immediately with no transport activity; otherwise send the
close command and succeed on any transport success (`verbose` only affects
logging). -/
def close_session (cfg : RunConfig) (verbose : Bool) (st : St) :
    Except DriverError Unit × St :=
  if st.fs cfg.dbg_sock = false then
    (.ok (), st)
  else
    match sendCmd closeLine st.net with
    | (.error e, n1) => (.error e, { st with net := n1 })
    | (.ok _, n1) => (.ok (), { st with net := n1 })

/-- `cleanup_old_state` from the source: best-effort removal of the socket
file and the event-store file plus its `-wal` and `-shm` sidecars (the
source's suffix loop over `["", "-wal", "-shm"]`; the empty suffix yields the
event-store path itself), then a best-effort close whose outcome is
discarded; always returns success. -/
def cleanup_old_state (cfg : RunConfig) (st : St) : Except DriverError Unit × St :=
  let fs1 := remove_file cfg.dbg_sock st.fs
  let fs2 := remove_file cfg.dbg_events_db fs1
  let fs3 := remove_file (cfg.dbg_events_db ++ "-wal") fs2
  let fs4 := remove_file (cfg.dbg_events_db ++ "-shm") fs3
  let st1 : St := { st with fs := fs4 }
  (.ok (), (close_session cfg false st1).2)

/-- The filesystem after `cleanup_old_state`'s four removals. -/
def cleanup_fs (cfg : RunConfig) (fs : String → Bool) : String → Bool :=
  remove_file (cfg.dbg_events_db ++ "-shm")
    (remove_file (cfg.dbg_events_db ++ "-wal")
      (remove_file cfg.dbg_events_db (remove_file cfg.dbg_sock fs)))

/-- `compile_target` from the source: fail with the not-found error when the
target source path does not exist; otherwise the recorded `rustc` outcome
decides between invocation failure, compile failure (carrying stderr), and
success. -/
def compile_target (cfg : RunConfig) (ext : ExtProc) (st : St) :
    Except DriverError Unit :=
  if st.fs cfg.target_src = false then
    .error (.notFound cfg.target_src)
  else
    match ext.rustc with
    | .invokeError msg => .error (.rustcInvokeFailed msg)
    | .finished success _ stderr =>
      if success then .ok () else .error (.compileError stderr)

/-- `ensure_daemon_running` from the source, with `run_cli` inlined: fail if
the CLI build artifact is missing; otherwise the recorded CLI outcome decides
between invocation failure, daemon-start failure (carrying stderr), and
success. -/
def ensure_daemon_running (cfg : RunConfig) (ext : ExtProc) (st : St) :
    Except DriverError Unit :=
  let cli_path := cfg.workspace_root ++ "/packages/cli/dist/cli.js"
  if st.fs cli_path = false then
    .error (.missingCliArtifact cli_path)
  else
    match ext.cli with
    | .invokeError msg => .error (.cliInvokeFailed msg)
    | .finished success _ stderr =>
      if success then .ok () else .error (.daemonStartError stderr)

/-- `json_escape` from the source, per character. `is_control` in Rust is
the Unicode Cc category: code points below 0x20 and 0x7f through 0x9f. -/
def isRustControl (c : Char) : Bool :=
  c.toNat < 0x20 || (0x7f ≤ c.toNat && c.toNat ≤ 0x9f)

/-- One hexadecimal digit as Rust lowercase hex formatting prints it. -/
def hexDigit (n : Nat) : Char :=
  if n < 10 then Char.ofNat (48 + n) else Char.ofNat (87 + n)

/-- The four-hex-digit zero-padded rendering of a code point below 0x10000,
as the escape branch of the source formats it. -/
def hex4 (n : Nat) : List Char :=
  [hexDigit (n / 4096 % 16), hexDigit (n / 256 % 16), hexDigit (n / 16 % 16),
   hexDigit (n % 16)]

/-- The escape sequence `json_escape` emits for one character. -/
def escapeChar (c : Char) : List Char :=
  if c = '"' then ['\\', '"']
  else if c = '\\' then ['\\', '\\']
  else if c = '\n' then ['\\', 'n']
  else if c = '\r' then ['\\', 'r']
  else if c = '\t' then ['\\', 't']
  else if isRustControl c then '\\' :: 'u' :: hex4 c.toNat
  else [c]

/-- `json_escape` from the source. -/
def json_escape (input : String) : String :=
  ⟨(input.toList.map escapeChar).flatten⟩

/-- `json_attach_lldb` from the source. -/
def json_attach_lldb (path : String) : String :=
  "\x7b\"cmd\":\"attach-lldb\",\"args\":\"" ++ json_escape path ++ "\"\x7d"

/-- Value of one hexadecimal digit character, case-insensitive. -/
def hexVal (c : Char) : Option Nat :=
  if '0' ≤ c ∧ c ≤ '9' then some (c.toNat - 48)
  else if 'a' ≤ c ∧ c ≤ 'f' then some (c.toNat - 87)
  else if 'A' ≤ c ∧ c ≤ 'F' then some (c.toNat - 55)
  else none

/-- Modelled from the spec: the standard JSON string decoder against which
the round-trip property is stated (the decoder is not part of the source;
the spec appeals to "a standard parser for the chosen line format").
Decodes the body of a JSON string literal: the two-character escapes of RFC
8259, `\uXXXX` escapes for any valid scalar value, and raw characters other
than the quote, the backslash and the control range below 0x20.  (Surrogate
pairs are not combined; a lone `\uXXXX` in the surrogate range is
rejected — the escaper only ever emits scalar values below 0xa0.) -/
def jsonUnescape : List Char → Option (List Char)
  | [] => some []
  | c :: rest =>
    if c = '\\' then
      match rest with
      | [] => none
      | e :: t =>
        if e = '"' then (jsonUnescape t).map (fun l => '"' :: l)
        else if e = '\\' then (jsonUnescape t).map (fun l => '\\' :: l)
        else if e = '/' then (jsonUnescape t).map (fun l => '/' :: l)
        else if e = 'b' then (jsonUnescape t).map (fun l => '\x08' :: l)
        else if e = 'f' then (jsonUnescape t).map (fun l => '\x0c' :: l)
        else if e = 'n' then (jsonUnescape t).map (fun l => '\n' :: l)
        else if e = 'r' then (jsonUnescape t).map (fun l => '\r' :: l)
        else if e = 't' then (jsonUnescape t).map (fun l => '\t' :: l)
        else if e = 'u' then
          match t with
          | a :: b :: cc :: d :: t2 =>
            match hexVal a, hexVal b, hexVal cc, hexVal d with
            | some va, some vb, some vc, some vd =>
              let code := ((va * 16 + vb) * 16 + vc) * 16 + vd
              if code.isValidChar then
                (jsonUnescape t2).map (fun l => Char.ofNat code :: l)
              else none
            | _, _, _, _ => none
          | _ => none
        else none
    else if c = '"' then none
    else if c.toNat < 0x20 then none
    else (jsonUnescape rest).map (fun l => c :: l)

/-- `run` from the source: the deterministic driver sequence.  Each step's
failure aborts the remainder.  The empty-rows check inspects the threads
query response for the literal fragment `"rows":[]`. -/
def run (cfg : RunConfig) (ext : ExtProc) (st : St) : Except DriverError Unit × St :=
  match cleanup_old_state cfg st with
  | (.error e, s1) => (.error e, s1)
  | (.ok _, s1) =>
  match compile_target cfg ext s1 with
  | .error e => (.error e, s1)
  | .ok _ =>
  match ensure_daemon_running cfg ext s1 with
  | .error e => (.error e, s1)
  | .ok _ =>
  match run_command_retry "attach-lldb" (json_attach_lldb cfg.target_bin) s1.net with
  | (.error e, n) => (.error e, { s1 with net := n })
  | (.ok _, n) =>
  match wait_for_status n with
  | (.error e, n) => (.error e, { s1 with net := n })
  | (.ok _, n) =>
  match run_command_retry "frames" framesLine n with
  | (.error e, n) => (.error e, { s1 with net := n })
  | (.ok _, n) =>
  match run_command_retry "threads" threadsLine n with
  | (.error e, n) => (.error e, { s1 with net := n })
  | (.ok threads, n) =>
  if strContains threads emptyRowsFrag then
    (.error .emptyResult, { s1 with net := n })
  else
  match ensure_paused n with
  | (.error e, n) => (.error e, { s1 with net := n })
  | (.ok _, n) =>
  match run_command_retry "step-over" stepLine n with
  | (.error e, n) => (.error e, { s1 with net := n })
  | (.ok _, n) =>
  match wait_for_status n with
  | (.error e, n) => (.error e, { s1 with net := n })
  | (.ok _, n) =>
  match run_command_retry "trace" traceLine n with
  | (.error e, n) => (.error e, { s1 with net := n })
  | (.ok _, n) =>
  close_session cfg true { s1 with net := n }

/-! ### Concrete inputs used by the witnesses and the counterexample -/

/-- A response with the ok marker and nothing else. -/
def okResp : String := "\x7b\"ok\":true\x7d"

/-- A response lacking the ok marker. -/
def notOkResp : String := "\x7b\"ok\":false\x7d"

/-- An ok status response carrying `connected:true`. -/
def okConnResp : String := "\x7b\"ok\":true,\"connected\":true\x7d"

/-- An ok status response reporting the running state. -/
def okRunningResp : String := "\x7b\"ok\":true,\"status\":\"running\"\x7d"

/-- An ok status response reporting the paused state. -/
def okPausedResp : String := "\x7b\"ok\":true,\"status\":\"paused\"\x7d"

/-- Oracle answering every exchange with a not-ok response. -/
def wRetryOracle : Nat → Except DriverError String := fun _ => .ok notOkResp

/-- Oracle answering the first exchange with a not-ok response and failing
at the transport level on the second. -/
def wErrOracle : Nat → Except DriverError String := fun n =>
  if n = 0 then .ok notOkResp
  else .error (.transportConnectError "/tmp/dbg-rust.sock" "connection refused")

/-- A `RunConfig` with the source's default paths. -/
def cfg0 : RunConfig :=
  ⟨"/root/ws", "/tmp/dbg-rust.sock", "/tmp/dbg-rust-events.db",
   "/root/ws/examples/rust/target.rs", "/tmp/dbg-rust-target"⟩

/-- A filesystem with no paths present. -/
def emptyFs : String → Bool := fun _ => false

/-- A quiescent transport state. -/
def idleNet : NetState := ⟨fun _ => .ok okResp, 0, [], 0⟩

/-- Driver state with no files and a quiescent transport. -/
def st0 : St := ⟨emptyFs, idleNet⟩

/-- Oracle answering every status poll with an ok, connected response. -/
def wConnOracle : Nat → Except DriverError String := fun _ => .ok okConnResp

/-- Oracle answering every status poll ok but never connected. -/
def wNoConnOracle : Nat → Except DriverError String := fun _ => .ok okResp

/-- The status oracle of the C1 scenario: status polls see running, running,
paused; the interleaved pause commands get plain ok responses. -/
def cexOracle : Nat → Except DriverError String := fun n =>
  match n with
  | 0 => .ok okRunningResp
  | 1 => .ok okResp
  | 2 => .ok okRunningResp
  | 3 => .ok okResp
  | _ => .ok okPausedResp

/-- The recorded process outcomes used by the driver witnesses: both the
compiler and the CLI succeed. -/
def ext0 : ExtProc := ⟨.finished true "" "", .finished true "" ""⟩

/-- Witness for C8: concrete filesystem, oracle and responses. -/
def w8fs : String → Bool := fun p =>
  p = cfg0.target_src || p = cfg0.workspace_root ++ "/packages/cli/dist/cli.js"

/-- Threads response that is ok but carries no rows. -/
def emptyRowsResp : String := "\x7b\"ok\":true,\"rows\":[]\x7d"

/-- Oracle for the C8 witness: attach ok, status connected, frames ok,
threads ok with empty rows. -/
def w8oracle : Nat → Except DriverError String := fun n =>
  match n with
  | 0 => .ok okResp
  | 1 => .ok okConnResp
  | 2 => .ok okResp
  | _ => .ok emptyRowsResp

/-! ### Step lemmas for the three transport loops -/

lemma retry_loop_ok (label line : String) (n : Nat) (le : String) (s : NetState)
    (r : String) (h : s.oracle s.calls = .ok r) (hok : response_ok r = true) :
    run_command_retry_loop label line (n + 1) le s =
      (.ok r, { s with calls := s.calls + 1, sent := s.sent ++ [line] }) := by
  simp [run_command_retry_loop, sendCmd, h, hok]

lemma retry_loop_err (label line : String) (n : Nat) (le : String) (s : NetState)
    (e : DriverError) (h : s.oracle s.calls = .error e) :
    run_command_retry_loop label line (n + 1) le s =
      (.error e, { s with calls := s.calls + 1, sent := s.sent ++ [line] }) := by
  simp [run_command_retry_loop, sendCmd, h]

lemma retry_loop_notok_step (label line : String) (n : Nat) (le : String) (s : NetState)
    (r : String) (h : s.oracle s.calls = .ok r) (hok : response_ok r = false) :
    run_command_retry_loop label line (n + 1 + 1) le s =
      run_command_retry_loop label line (n + 1) r
        (sleepNet { s with calls := s.calls + 1, sent := s.sent ++ [line] }) := by
  simp [run_command_retry_loop, sendCmd, h, hok]

lemma retry_loop_notok_last (label line : String) (le : String) (s : NetState)
    (r : String) (h : s.oracle s.calls = .ok r) (hok : response_ok r = false) :
    run_command_retry_loop label line (0 + 1) le s =
      (.error (.retryExhausted label r),
       { s with calls := s.calls + 1, sent := s.sent ++ [line] }) := by
  simp [run_command_retry_loop, sendCmd, h, hok]

lemma wait_loop_good (n : Nat) (s : NetState) (r : String)
    (h : s.oracle s.calls = .ok r)
    (hg : (response_ok r && strContains r connectedFrag) = true) :
    wait_for_status_loop (n + 1) s =
      (.ok r, { s with calls := s.calls + 1, sent := s.sent ++ [statusLine] }) := by
  simp [wait_for_status_loop, sendCmd, h, hg]

lemma wait_loop_bad (n : Nat) (s : NetState) (r : String)
    (h : s.oracle s.calls = .ok r)
    (hg : (response_ok r && strContains r connectedFrag) = false) :
    wait_for_status_loop (n + 1) s =
      wait_for_status_loop n
        (sleepNet { s with calls := s.calls + 1, sent := s.sent ++ [statusLine] }) := by
  simp [wait_for_status_loop, sendCmd, h, hg]

lemma wait_loop_err (n : Nat) (s : NetState) (e : DriverError)
    (h : s.oracle s.calls = .error e) :
    wait_for_status_loop (n + 1) s =
      (.error e, { s with calls := s.calls + 1, sent := s.sent ++ [statusLine] }) := by
  simp [wait_for_status_loop, sendCmd, h]

lemma paused_loop_paused (n : Nat) (s : NetState) (r : String)
    (h : s.oracle s.calls = .ok r)
    (hok : response_ok r = true) (hp : strContains r pausedFrag = true) :
    ensure_paused_loop (n + 1) s =
      (.ok (), { s with calls := s.calls + 1, sent := s.sent ++ [statusLine] }) := by
  simp [ensure_paused_loop, sendCmd, h, hok, hp]

lemma paused_loop_running (n : Nat) (s : NetState) (r p : String)
    (h : s.oracle s.calls = .ok r)
    (hok : response_ok r = true) (hp : strContains r pausedFrag = false)
    (hr : strContains r runningFrag = true)
    (hpause : s.oracle (s.calls + 1) = .ok p) :
    ensure_paused_loop (n + 1) s =
      ensure_paused_loop n
        (sleepNet { s with calls := s.calls + 1 + 1,
                           sent := s.sent ++ [statusLine] ++ [pauseLine] }) := by
  simp [ensure_paused_loop, sendCmd, h, hok, hp, hr, hpause]

/-- Polling reaches the first good status response: with `k` not-yet-connected
responses followed by a good one (and enough polls left), the wait loop
returns that response having made exactly `k + 1` transport calls. -/
lemma wait_loop_first_good : ∀ (fuel k : Nat) (s : NetState) (r : String),
    k < fuel →
    (∀ i, i < k → ∃ ri, s.oracle (s.calls + i) = .ok ri ∧
        (response_ok ri && strContains ri connectedFrag) = false) →
    s.oracle (s.calls + k) = .ok r →
    (response_ok r && strContains r connectedFrag) = true →
    (wait_for_status_loop fuel s).1 = .ok r ∧
    (wait_for_status_loop fuel s).2.calls = s.calls + (k + 1) := by
  intro fuel
  induction fuel with
  | zero => intro k s r hk; omega
  | succ n ih =>
    intro k s r hk hb hg hgood
    cases k with
    | zero =>
      have h0 : s.oracle s.calls = .ok r := by simpa using hg
      rw [wait_loop_good n s r h0 hgood]
      exact ⟨rfl, rfl⟩
    | succ k' =>
      obtain ⟨r0, h0, hb0⟩ := hb 0 (Nat.succ_pos k')
      have h0' : s.oracle s.calls = .ok r0 := by simpa using h0
      rw [wait_loop_bad n s r0 h0' hb0]
      have hb' : ∀ i, i < k' → ∃ ri, (sleepNet { s with calls := s.calls + 1, sent := s.sent ++ [statusLine] }).oracle ((sleepNet { s with calls := s.calls + 1, sent := s.sent ++ [statusLine] }).calls + i) = .ok ri ∧ (response_ok ri && strContains ri connectedFrag) = false := by
        intro i hi
        obtain ⟨ri, hri, hbi⟩ := hb (i + 1) (by omega)
        refine ⟨ri, ?_, hbi⟩
        show s.oracle (s.calls + 1 + i) = .ok ri
        rw [show s.calls + 1 + i = s.calls + (i + 1) from by omega]
        exact hri
      have hg' : (sleepNet { s with calls := s.calls + 1, sent := s.sent ++ [statusLine] }).oracle ((sleepNet { s with calls := s.calls + 1, sent := s.sent ++ [statusLine] }).calls + k') = .ok r := by
        show s.oracle (s.calls + 1 + k') = .ok r
        rw [show s.calls + 1 + k' = s.calls + (k' + 1) from by omega]
        exact hg
      obtain ⟨ha, hc⟩ := ih k' _ r (by omega) hb' hg' hgood
      refine ⟨ha, ?_⟩
      rw [hc]
      show s.calls + 1 + (k' + 1) = s.calls + (k' + 1 + 1)
      omega

/-- Polling exhaustion: when every remaining poll yields a transport success
that is not yet connected, the wait loop times out after exactly `fuel`
further transport calls. -/
lemma wait_loop_all_bad : ∀ (fuel : Nat) (s : NetState),
    (∀ i, i < fuel → ∃ ri, s.oracle (s.calls + i) = .ok ri ∧
        (response_ok ri && strContains ri connectedFrag) = false) →
    (wait_for_status_loop fuel s).1 = .error (.waitTimeout "connected") ∧
    (wait_for_status_loop fuel s).2.calls = s.calls + fuel := by
  intro fuel
  induction fuel with
  | zero => intro s _; exact ⟨rfl, rfl⟩
  | succ n ih =>
    intro s hb
    obtain ⟨r0, h0, hb0⟩ := hb 0 (Nat.succ_pos n)
    have h0' : s.oracle s.calls = .ok r0 := by simpa using h0
    rw [wait_loop_bad n s r0 h0' hb0]
    have hb' : ∀ i, i < n → ∃ ri, (sleepNet { s with calls := s.calls + 1, sent := s.sent ++ [statusLine] }).oracle ((sleepNet { s with calls := s.calls + 1, sent := s.sent ++ [statusLine] }).calls + i) = .ok ri ∧ (response_ok ri && strContains ri connectedFrag) = false := by
      intro i hi
      obtain ⟨ri, hri, hbi⟩ := hb (i + 1) (by omega)
      refine ⟨ri, ?_, hbi⟩
      show s.oracle (s.calls + 1 + i) = .ok ri
      rw [show s.calls + 1 + i = s.calls + (i + 1) from by omega]
      exact hri
    obtain ⟨ha, hc⟩ := ih _ hb'
    refine ⟨ha, ?_⟩
    rw [hc]
    show s.calls + 1 + n = s.calls + (n + 1)
    omega

/-! ### Cleanup lemmas -/

lemma cleanup_fs_sock (cfg : RunConfig) (fs : String → Bool) :
    cleanup_fs cfg fs cfg.dbg_sock = false := by
  simp only [cleanup_fs, remove_file]
  split_ifs <;> simp_all

lemma cleanup_eq (cfg : RunConfig) (st : St) :
    cleanup_old_state cfg st = (.ok (), { st with fs := cleanup_fs cfg st.fs }) := by
  have h : cleanup_fs cfg st.fs cfg.dbg_sock = false := cleanup_fs_sock cfg st.fs
  simp only [cleanup_fs, remove_file] at h
  simp [cleanup_old_state, close_session, remove_file, h, cleanup_fs]

/-! ### The claims -/

/-- C2: a command whose transport response on every attempt lacks the
`"ok":true` marker (with no transport-level error) is attempted exactly
`COMMAND_RETRY_ATTEMPTS = 3` times and fails with the retry-exhausted error
carrying the final response body; two sleeps separate the three attempts. -/
theorem C2_retry_exhaustion (oracle : Nat → Except DriverError String)
    (label line r0 r1 r2 : String)
    (h0 : oracle 0 = .ok r0) (h1 : oracle 1 = .ok r1) (h2 : oracle 2 = .ok r2)
    (hb0 : response_ok r0 = false) (hb1 : response_ok r1 = false)
    (hb2 : response_ok r2 = false) :
    run_command_retry label line ⟨oracle, 0, [], 0⟩ =
      (.error (.retryExhausted label r2), ⟨oracle, 3, [line, line, line], 2⟩) := by
  have e1 : run_command_retry label line ⟨oracle, 0, [], 0⟩ =
      run_command_retry_loop label line 2 r0 ⟨oracle, 1, [line], 1⟩ :=
    retry_loop_notok_step label line 1 "" ⟨oracle, 0, [], 0⟩ r0 h0 hb0
  have e2 : run_command_retry_loop label line 2 r0 ⟨oracle, 1, [line], 1⟩ =
      run_command_retry_loop label line 1 r1 ⟨oracle, 2, [line, line], 2⟩ :=
    retry_loop_notok_step label line 0 r0 ⟨oracle, 1, [line], 1⟩ r1 h1 hb1
  have e3 : run_command_retry_loop label line 1 r1 ⟨oracle, 2, [line, line], 2⟩ =
      (.error (.retryExhausted label r2), ⟨oracle, 3, [line, line, line], 2⟩) :=
    retry_loop_notok_last label line r1 ⟨oracle, 2, [line, line], 2⟩ r2 h2 hb2
  rw [e1, e2, e3]

/-- Witness for C2 at a concrete oracle. -/
theorem C2_retry_exhaustion_witness :
    response_ok notOkResp = false ∧
    run_command_retry "step-over" stepLine ⟨wRetryOracle, 0, [], 0⟩ =
      (.error (.retryExhausted "step-over" notOkResp),
       ⟨wRetryOracle, 3, [stepLine, stepLine, stepLine], 2⟩) :=
  ⟨by decide,
   C2_retry_exhaustion wRetryOracle "step-over" stepLine notOkResp notOkResp notOkResp
     rfl rfl rfl (by decide) (by decide) (by decide)⟩

/-- C3: a transport-level failure at any attempt propagates immediately:
after `j` not-ok attempts, a transport error on attempt `j + 1` makes the
retry executor return that very error, with exactly `j + 1` transport calls
and exactly `j` sleeps (none after the failing attempt). -/
theorem C3_transport_error_aborts (oracle : Nat → Except DriverError String)
    (label line : String) (j : Nat) (e : DriverError)
    (hj : j < 3) (he : oracle j = .error e)
    (hb : ∀ i, i < j → ∃ r, oracle i = .ok r ∧ response_ok r = false) :
    (run_command_retry label line ⟨oracle, 0, [], 0⟩).1 = .error e ∧
    (run_command_retry label line ⟨oracle, 0, [], 0⟩).2.calls = j + 1 ∧
    (run_command_retry label line ⟨oracle, 0, [], 0⟩).2.sleeps = j := by
  interval_cases j
  · have heq : run_command_retry label line ⟨oracle, 0, [], 0⟩ =
        (.error e, ⟨oracle, 1, [line], 0⟩) :=
      retry_loop_err label line 2 "" ⟨oracle, 0, [], 0⟩ e he
    rw [heq]
    exact ⟨rfl, rfl, rfl⟩
  · obtain ⟨r0, h0, hb0⟩ := hb 0 (by norm_num)
    have e1 : run_command_retry label line ⟨oracle, 0, [], 0⟩ =
        run_command_retry_loop label line 2 r0 ⟨oracle, 1, [line], 1⟩ :=
      retry_loop_notok_step label line 1 "" ⟨oracle, 0, [], 0⟩ r0 h0 hb0
    have e2 : run_command_retry_loop label line 2 r0 ⟨oracle, 1, [line], 1⟩ =
        (.error e, ⟨oracle, 2, [line, line], 1⟩) :=
      retry_loop_err label line 1 r0 ⟨oracle, 1, [line], 1⟩ e he
    rw [e1, e2]
    exact ⟨rfl, rfl, rfl⟩
  · obtain ⟨r0, h0, hb0⟩ := hb 0 (by norm_num)
    obtain ⟨r1, h1, hb1⟩ := hb 1 (by norm_num)
    have e1 : run_command_retry label line ⟨oracle, 0, [], 0⟩ =
        run_command_retry_loop label line 2 r0 ⟨oracle, 1, [line], 1⟩ :=
      retry_loop_notok_step label line 1 "" ⟨oracle, 0, [], 0⟩ r0 h0 hb0
    have e2 : run_command_retry_loop label line 2 r0 ⟨oracle, 1, [line], 1⟩ =
        run_command_retry_loop label line 1 r1 ⟨oracle, 2, [line, line], 2⟩ :=
      retry_loop_notok_step label line 0 r0 ⟨oracle, 1, [line], 1⟩ r1 h1 hb1
    have e3 : run_command_retry_loop label line 1 r1 ⟨oracle, 2, [line, line], 2⟩ =
        (.error e, ⟨oracle, 3, [line, line, line], 2⟩) :=
      retry_loop_err label line 0 r1 ⟨oracle, 2, [line, line], 2⟩ e he
    rw [e1, e2, e3]
    exact ⟨rfl, rfl, rfl⟩

/-- Witness for C3 at a concrete oracle failing on the second attempt. -/
theorem C3_transport_error_aborts_witness :
    wErrOracle 1 = .error (.transportConnectError "/tmp/dbg-rust.sock" "connection refused") ∧
    (run_command_retry "trace" traceLine ⟨wErrOracle, 0, [], 0⟩).1 =
      .error (.transportConnectError "/tmp/dbg-rust.sock" "connection refused") ∧
    (run_command_retry "trace" traceLine ⟨wErrOracle, 0, [], 0⟩).2.calls = 2 ∧
    (run_command_retry "trace" traceLine ⟨wErrOracle, 0, [], 0⟩).2.sleeps = 1 := by
  refine ⟨rfl, ?_⟩
  exact C3_transport_error_aborts wErrOracle "trace" traceLine 1
    (.transportConnectError "/tmp/dbg-rust.sock" "connection refused")
    (by norm_num) rfl
    (fun i hi => by
      interval_cases i
      exact ⟨notOkResp, rfl, by decide⟩)

/-- C4: a socket read failure whose underlying kind is timed-out or
would-block is surfaced as the transport-timeout error and never as the
generic transport-IO error; any other read failure is surfaced as the
generic transport-IO error. -/
theorem C4_read_error_classification (sock : String) (ops : SocketOps)
    (k : RustErrKind)
    (hc : ops.connect = .ok ()) (hrt : ops.setReadTimeout = .ok ())
    (hwt : ops.setWriteTimeout = .ok ()) (hw : ops.writeAll = .ok ())
    (hr : ops.readLine = .error k) :
    ((k = .timedOut ∨ k = .wouldBlock) →
      send_socket_command sock ops = .error (.transportTimeout sock) ∧
      ∀ msg, send_socket_command sock ops ≠ .error (.transportIOError msg)) ∧
    (∀ msg, k = .otherKind msg →
      send_socket_command sock ops = .error (.transportIOError msg)) := by
  cases k <;> simp [send_socket_command, hc, hrt, hwt, hw, hr]

/-- Witness for C4 at a concrete timed-out read. -/
theorem C4_read_error_classification_witness :
    (⟨.ok (), .ok (), .ok (), .ok (), .error .timedOut⟩ : SocketOps).readLine =
        .error .timedOut ∧
    send_socket_command "/tmp/dbg-rust.sock"
        ⟨.ok (), .ok (), .ok (), .ok (), .error .timedOut⟩ =
      .error (.transportTimeout "/tmp/dbg-rust.sock") :=
  ⟨rfl,
   ((C4_read_error_classification "/tmp/dbg-rust.sock"
      ⟨.ok (), .ok (), .ok (), .ok (), .error .timedOut⟩ .timedOut
      rfl rfl rfl rfl rfl).1 (Or.inl rfl)).1⟩

/-- C6: cleanup succeeds unconditionally, twice in a row, and after the
first call the socket file, the event-store file and its two sidecars are
absent — so the second call targets absent files and still succeeds. -/
theorem C6_cleanup_idempotent (cfg : RunConfig) (st : St) :
    (cleanup_old_state cfg st).1 = .ok () ∧
    (cleanup_old_state cfg ((cleanup_old_state cfg st).2)).1 = .ok () ∧
    ((cleanup_old_state cfg st).2).fs cfg.dbg_sock = false ∧
    ((cleanup_old_state cfg st).2).fs cfg.dbg_events_db = false ∧
    ((cleanup_old_state cfg st).2).fs (cfg.dbg_events_db ++ "-wal") = false ∧
    ((cleanup_old_state cfg st).2).fs (cfg.dbg_events_db ++ "-shm") = false := by
  rw [cleanup_eq cfg st, cleanup_eq cfg ({ st with fs := cleanup_fs cfg st.fs })]
  refine ⟨rfl, rfl, ?_, ?_, ?_, ?_⟩ <;>
    · simp only [cleanup_fs, remove_file]
      split_ifs <;> rfl

/-- C10: when the socket path does not exist, `close_session` returns
success immediately, leaving the transport state (and all state) untouched:
no connect, write or read happens. -/
theorem C10_close_session_no_socket (cfg : RunConfig) (verbose : Bool) (st : St)
    (h : st.fs cfg.dbg_sock = false) :
    close_session cfg verbose st = (.ok (), st) := by
  simp [close_session, h]

/-- Witness for C10 at a concrete configuration with no files present. -/
theorem C10_close_session_no_socket_witness :
    st0.fs cfg0.dbg_sock = false ∧ close_session cfg0 false st0 = (.ok (), st0) :=
  ⟨rfl, C10_close_session_no_socket cfg0 false st0 rfl⟩

/-- C7: `wait_for_status` returns success at the first poll whose response
is ok and carries `"connected":true`, having performed exactly that many
status transport calls; if none of the `PAUSE_WAIT_POLLS = 60` polls
qualifies (each being a transport success), it fails with the wait-timeout
error after exactly 60 transport calls. -/
theorem C7_wait_connected_first_success (oracle : Nat → Except DriverError String) :
    (∀ k r, k < PAUSE_WAIT_POLLS →
      (∀ i, i < k → ∃ ri, oracle i = .ok ri ∧
          (response_ok ri && strContains ri connectedFrag) = false) →
      oracle k = .ok r →
      (response_ok r && strContains r connectedFrag) = true →
      (wait_for_status ⟨oracle, 0, [], 0⟩).1 = .ok r ∧
      (wait_for_status ⟨oracle, 0, [], 0⟩).2.calls = k + 1) ∧
    ((∀ i, i < PAUSE_WAIT_POLLS → ∃ ri, oracle i = .ok ri ∧
        (response_ok ri && strContains ri connectedFrag) = false) →
      (wait_for_status ⟨oracle, 0, [], 0⟩).1 = .error (.waitTimeout "connected") ∧
      (wait_for_status ⟨oracle, 0, [], 0⟩).2.calls = PAUSE_WAIT_POLLS) := by
  constructor
  · intro k r hk hb hg hgood
    have hb' : ∀ i, i < k → ∃ ri,
        (⟨oracle, 0, [], 0⟩ : NetState).oracle ((⟨oracle, 0, [], 0⟩ : NetState).calls + i) = .ok ri ∧
        (response_ok ri && strContains ri connectedFrag) = false := by
      intro i hi
      obtain ⟨ri, hri, hbi⟩ := hb i hi
      refine ⟨ri, ?_, hbi⟩
      show oracle (0 + i) = .ok ri
      rw [Nat.zero_add]
      exact hri
    have hg' : (⟨oracle, 0, [], 0⟩ : NetState).oracle ((⟨oracle, 0, [], 0⟩ : NetState).calls + k) = .ok r := by
      show oracle (0 + k) = .ok r
      rw [Nat.zero_add]
      exact hg
    obtain ⟨h1, h2⟩ :=
      wait_loop_first_good PAUSE_WAIT_POLLS k ⟨oracle, 0, [], 0⟩ r hk hb' hg' hgood
    exact ⟨h1, by simpa using h2⟩
  · intro hb
    have hb' : ∀ i, i < PAUSE_WAIT_POLLS → ∃ ri,
        (⟨oracle, 0, [], 0⟩ : NetState).oracle ((⟨oracle, 0, [], 0⟩ : NetState).calls + i) = .ok ri ∧
        (response_ok ri && strContains ri connectedFrag) = false := by
      intro i hi
      obtain ⟨ri, hri, hbi⟩ := hb i hi
      refine ⟨ri, ?_, hbi⟩
      show oracle (0 + i) = .ok ri
      rw [Nat.zero_add]
      exact hri
    obtain ⟨h1, h2⟩ := wait_loop_all_bad PAUSE_WAIT_POLLS ⟨oracle, 0, [], 0⟩ hb'
    exact ⟨h1, by simpa using h2⟩

/-- Witness for C7: immediate success on a connected response, and timeout
on an oracle that never reports connected. -/
theorem C7_wait_connected_first_success_witness :
    (response_ok okConnResp && strContains okConnResp connectedFrag) = true ∧
    (wait_for_status ⟨wConnOracle, 0, [], 0⟩).1 = .ok okConnResp ∧
    (wait_for_status ⟨wConnOracle, 0, [], 0⟩).2.calls = 1 ∧
    (wait_for_status ⟨wNoConnOracle, 0, [], 0⟩).1 = .error (.waitTimeout "connected") := by
  have hA := (C7_wait_connected_first_success wConnOracle).1 0 okConnResp
    (by norm_num [PAUSE_WAIT_POLLS]) (fun i hi => absurd hi (Nat.not_lt_zero i))
    rfl (by decide)
  have hB := (C7_wait_connected_first_success wNoConnOracle).2
    (fun i _ => ⟨okResp, rfl, by decide⟩)
  exact ⟨by decide, hA.1, hA.2, hB.1⟩

/-- C1 as stated is false: on the run whose three successive status
responses are running, running, paused (each ok), `ensure_paused` issues
TWO pause commands, not exactly one — the source pauses after every poll
that sees running. -/
theorem C1_single_pause_counterexample :
    (ensure_paused ⟨cexOracle, 0, [], 0⟩).1 = .ok () ∧
    ((ensure_paused ⟨cexOracle, 0, [], 0⟩).2.sent.count pauseLine = 2) ∧
    ¬ ((ensure_paused ⟨cexOracle, 0, [], 0⟩).2.sent.count pauseLine = 1) := by
  refine ⟨rfl, rfl, fun h => ?_⟩
  have h2 : (ensure_paused ⟨cexOracle, 0, [], 0⟩).2.sent.count pauseLine = 2 := rfl
  omega

/-- C1 (amended): on every run of `ensure_paused` whose three successive
status responses are running, running, paused (each ok, with the two
interleaved pause responses being transport successes), the engine issues
exactly two pause commands — one after each running status poll — and
returns success on the third status poll, the full request log being
status, pause, status, pause, status. -/
theorem C1_wait_paused_two_pauses (oracle : Nat → Except DriverError String)
    (r1 p1 r2 p2 r3 : String)
    (h0 : oracle 0 = .ok r1) (h1 : oracle 1 = .ok p1)
    (h2 : oracle 2 = .ok r2) (h3 : oracle 3 = .ok p2)
    (h4 : oracle 4 = .ok r3)
    (hok1 : response_ok r1 = true) (hnp1 : strContains r1 pausedFrag = false)
    (hrun1 : strContains r1 runningFrag = true)
    (hok2 : response_ok r2 = true) (hnp2 : strContains r2 pausedFrag = false)
    (hrun2 : strContains r2 runningFrag = true)
    (hok3 : response_ok r3 = true) (hp3 : strContains r3 pausedFrag = true) :
    ensure_paused ⟨oracle, 0, [], 0⟩ =
      (.ok (), ⟨oracle, 5, [statusLine, pauseLine, statusLine, pauseLine, statusLine], 2⟩) := by
  have e1 : ensure_paused ⟨oracle, 0, [], 0⟩ =
      ensure_paused_loop 59 ⟨oracle, 2, [statusLine, pauseLine], 1⟩ :=
    paused_loop_running 59 ⟨oracle, 0, [], 0⟩ r1 p1 h0 hok1 hnp1 hrun1 h1
  have e2 : ensure_paused_loop 59 ⟨oracle, 2, [statusLine, pauseLine], 1⟩ =
      ensure_paused_loop 58
        ⟨oracle, 4, [statusLine, pauseLine, statusLine, pauseLine], 2⟩ :=
    paused_loop_running 58 ⟨oracle, 2, [statusLine, pauseLine], 1⟩ r2 p2 h2 hok2 hnp2 hrun2 h3
  have e3 : ensure_paused_loop 58
        ⟨oracle, 4, [statusLine, pauseLine, statusLine, pauseLine], 2⟩ =
      (.ok (), ⟨oracle, 5, [statusLine, pauseLine, statusLine, pauseLine, statusLine], 2⟩) :=
    paused_loop_paused 57 ⟨oracle, 4, [statusLine, pauseLine, statusLine, pauseLine], 2⟩ r3 h4 hok3 hp3
  rw [e1, e2, e3]

/-- Witness for the amended C1 at the concrete running/running/paused
oracle. -/
theorem C1_wait_paused_two_pauses_witness :
    response_ok okRunningResp = true ∧
    ensure_paused ⟨cexOracle, 0, [], 0⟩ =
      (.ok (), ⟨cexOracle, 5, [statusLine, pauseLine, statusLine, pauseLine, statusLine], 2⟩) :=
  ⟨by decide,
   C1_wait_paused_two_pauses cexOracle okRunningResp okResp okRunningResp okResp okPausedResp
     rfl rfl rfl rfl rfl
     (by decide) (by decide) (by decide)
     (by decide) (by decide) (by decide)
     (by decide) (by decide)⟩

/-- C9: when the target source path does not exist, the driver fails at the
compile step with the not-found error; the cleanup step preceding it (whose
best-effort close sees the just-removed socket path) performs no transport
activity, so the final state carries the initial `NetState` unchanged: no
socket connection was attempted. -/
theorem C9_missing_source_fails_before_transport (cfg : RunConfig) (ext : ExtProc)
    (st : St) (h : st.fs cfg.target_src = false) :
    run cfg ext st =
      (.error (.notFound cfg.target_src), { st with fs := cleanup_fs cfg st.fs }) ∧
    (run cfg ext st).2.net = st.net := by
  have hsrc : cleanup_fs cfg st.fs cfg.target_src = false := by
    simp only [cleanup_fs, remove_file]
    split_ifs <;> first | rfl | exact h
  have hmain : run cfg ext st =
      (.error (.notFound cfg.target_src), { st with fs := cleanup_fs cfg st.fs }) := by
    unfold run
    rw [cleanup_eq cfg st]
    simp [compile_target, hsrc]
  exact ⟨hmain, by rw [hmain]⟩

/-- C8: in the driver sequence, when bootstrap, attach, wait-for-connected
and the frames query all succeed at once, and the threads query succeeds
(ok) but its response contains the empty-rows fragment, the driver fails
with the empty-result error; the request log then holds exactly the attach,
status, frames and threads lines — no pause, step, trace or close follows. -/
theorem C8_empty_threads_aborts (cfg : RunConfig) (ext : ExtProc)
    (fs : String → Bool) (oracle : Nat → Except DriverError String)
    (aResp sResp fResp tResp co ce ko ke : String)
    (hsrc : fs cfg.target_src = true)
    (hd1 : cfg.target_src ≠ cfg.dbg_sock)
    (hd2 : cfg.target_src ≠ cfg.dbg_events_db)
    (hd3 : cfg.target_src ≠ cfg.dbg_events_db ++ "-wal")
    (hd4 : cfg.target_src ≠ cfg.dbg_events_db ++ "-shm")
    (hcli : fs (cfg.workspace_root ++ "/packages/cli/dist/cli.js") = true)
    (hd5 : cfg.workspace_root ++ "/packages/cli/dist/cli.js" ≠ cfg.dbg_sock)
    (hd6 : cfg.workspace_root ++ "/packages/cli/dist/cli.js" ≠ cfg.dbg_events_db)
    (hd7 : cfg.workspace_root ++ "/packages/cli/dist/cli.js" ≠ cfg.dbg_events_db ++ "-wal")
    (hd8 : cfg.workspace_root ++ "/packages/cli/dist/cli.js" ≠ cfg.dbg_events_db ++ "-shm")
    (hrustc : ext.rustc = .finished true co ce)
    (hcliR : ext.cli = .finished true ko ke)
    (h0 : oracle 0 = .ok aResp) (ha : response_ok aResp = true)
    (h1 : oracle 1 = .ok sResp)
    (hs : (response_ok sResp && strContains sResp connectedFrag) = true)
    (h2 : oracle 2 = .ok fResp) (hf : response_ok fResp = true)
    (h3 : oracle 3 = .ok tResp) (ht : response_ok tResp = true)
    (hrows : strContains tResp emptyRowsFrag = true) :
    run cfg ext ⟨fs, ⟨oracle, 0, [], 0⟩⟩ =
      (.error .emptyResult,
       ⟨cleanup_fs cfg fs,
        ⟨oracle, 4,
         [json_attach_lldb cfg.target_bin, statusLine, framesLine, threadsLine], 0⟩⟩) := by
  have hsrc' : cleanup_fs cfg fs cfg.target_src = true := by
    simp only [cleanup_fs, remove_file]
    rw [if_neg hd4, if_neg hd3, if_neg hd2, if_neg hd1]
    exact hsrc
  have hcli' : cleanup_fs cfg fs (cfg.workspace_root ++ "/packages/cli/dist/cli.js") = true := by
    simp only [cleanup_fs, remove_file]
    rw [if_neg hd8, if_neg hd7, if_neg hd6, if_neg hd5]
    exact hcli
  have eA : run_command_retry "attach-lldb" (json_attach_lldb cfg.target_bin)
      ⟨oracle, 0, [], 0⟩ =
      (.ok aResp, ⟨oracle, 1, [json_attach_lldb cfg.target_bin], 0⟩) :=
    retry_loop_ok "attach-lldb" (json_attach_lldb cfg.target_bin) 2 ""
      ⟨oracle, 0, [], 0⟩ aResp h0 ha
  have eB : wait_for_status ⟨oracle, 1, [json_attach_lldb cfg.target_bin], 0⟩ =
      (.ok sResp, ⟨oracle, 2, [json_attach_lldb cfg.target_bin, statusLine], 0⟩) :=
    wait_loop_good 59 ⟨oracle, 1, [json_attach_lldb cfg.target_bin], 0⟩ sResp h1 hs
  have eC : run_command_retry "frames" framesLine
      ⟨oracle, 2, [json_attach_lldb cfg.target_bin, statusLine], 0⟩ =
      (.ok fResp,
       ⟨oracle, 3, [json_attach_lldb cfg.target_bin, statusLine, framesLine], 0⟩) :=
    retry_loop_ok "frames" framesLine 2 ""
      ⟨oracle, 2, [json_attach_lldb cfg.target_bin, statusLine], 0⟩ fResp h2 hf
  have eD : run_command_retry "threads" threadsLine
      ⟨oracle, 3, [json_attach_lldb cfg.target_bin, statusLine, framesLine], 0⟩ =
      (.ok tResp,
       ⟨oracle, 4,
        [json_attach_lldb cfg.target_bin, statusLine, framesLine, threadsLine], 0⟩) :=
    retry_loop_ok "threads" threadsLine 2 ""
      ⟨oracle, 3, [json_attach_lldb cfg.target_bin, statusLine, framesLine], 0⟩ tResp h3 ht
  unfold run
  rw [cleanup_eq cfg ⟨fs, ⟨oracle, 0, [], 0⟩⟩]
  simp only [compile_target, ensure_daemon_running, hrustc, hcliR, hsrc', hcli',
    eA, eB, eC, eD, hrows, if_true, if_false]
  simp [hsrc', hcli']

/-- Witness for C8 at the concrete scenario. -/
theorem C8_empty_threads_aborts_witness :
    strContains emptyRowsResp emptyRowsFrag = true ∧
    run cfg0 ext0 ⟨w8fs, ⟨w8oracle, 0, [], 0⟩⟩ =
      (.error .emptyResult,
       ⟨cleanup_fs cfg0 w8fs,
        ⟨w8oracle, 4,
         [json_attach_lldb cfg0.target_bin, statusLine, framesLine, threadsLine], 0⟩⟩) := by
  refine ⟨by decide, ?_⟩
  exact C8_empty_threads_aborts cfg0 ext0 w8fs w8oracle
    okResp okConnResp okResp emptyRowsResp "" "" "" ""
    (by decide) (by decide) (by decide) (by decide) (by decide)
    (by decide) (by decide) (by decide) (by decide) (by decide)
    rfl rfl
    rfl (by decide)
    rfl (by decide)
    rfl (by decide)
    rfl (by decide)
    (by decide)

/-- Witness for C9: default-path configuration over an empty filesystem. -/
theorem C9_missing_source_fails_before_transport_witness :
    st0.fs cfg0.target_src = false ∧
    run cfg0 ext0 st0 =
      (.error (.notFound cfg0.target_src), { st0 with fs := cleanup_fs cfg0 st0.fs }) ∧
    (run cfg0 ext0 st0).2.net = st0.net := by
  refine ⟨rfl, ?_⟩
  exact C9_missing_source_fails_before_transport cfg0 ext0 st0 rfl

/-! ### The escaping round trip -/

lemma hexVal_hexDigit (d : Nat) (hd : d < 16) : hexVal (hexDigit d) = some d := by
  interval_cases d <;> rfl

lemma jsonUnescape_plain (c : Char) (rest : List Char)
    (h2 : ¬ c = '\\') (h1 : ¬ c = '"') (h3 : ¬ c.toNat < 0x20) :
    jsonUnescape (c :: rest) = (jsonUnescape rest).map (fun l => c :: l) := by
  rw [jsonUnescape.eq_def]
  simp only [if_neg h2, if_neg h1, if_neg h3]

/-- Decoding inverts the escape sequence emitted for any one character. -/
lemma jsonUnescape_escapeChar (c : Char) (rest : List Char) :
    jsonUnescape (escapeChar c ++ rest) = (jsonUnescape rest).map (fun l => c :: l) := by
  by_cases h1 : c = '"'
  · subst h1
    rw [show escapeChar '"' ++ rest = '\\' :: '"' :: rest from rfl, jsonUnescape.eq_def]
    simp
  by_cases h2 : c = '\\'
  · subst h2
    rw [show escapeChar '\\' ++ rest = '\\' :: '\\' :: rest from rfl, jsonUnescape.eq_def]
    simp
  by_cases h3 : c = '\n'
  · subst h3
    rw [show escapeChar '\n' ++ rest = '\\' :: 'n' :: rest from rfl, jsonUnescape.eq_def]
    simp
  by_cases h4 : c = '\r'
  · subst h4
    rw [show escapeChar '\r' ++ rest = '\\' :: 'r' :: rest from rfl, jsonUnescape.eq_def]
    simp
  by_cases h5 : c = '\t'
  · subst h5
    rw [show escapeChar '\t' ++ rest = '\\' :: 't' :: rest from rfl, jsonUnescape.eq_def]
    simp
  by_cases hc : isRustControl c = true
  · have hcP : c.toNat < 0x20 ∨ (0x7f ≤ c.toNat ∧ c.toNat ≤ 0x9f) := by
      simpa [isRustControl] using hc
    have he : escapeChar c = '\\' :: 'u' :: hex4 c.toNat := by
      simp [escapeChar, h1, h2, h3, h4, h5, hc]
    rw [he]
    simp only [hex4, List.cons_append, List.nil_append]
    simp only [jsonUnescape, reduceIte]
    rw [hexVal_hexDigit (c.toNat / 4096 % 16) (by omega),
        hexVal_hexDigit (c.toNat / 256 % 16) (by omega),
        hexVal_hexDigit (c.toNat / 16 % 16) (by omega),
        hexVal_hexDigit (c.toNat % 16) (by omega)]
    simp only []
    rw [show (c.toNat / 4096 % 16 * 16 + c.toNat / 256 % 16) * 16 + c.toNat / 16 % 16 = c.toNat / 16 from by omega]
    rw [show c.toNat / 16 * 16 + c.toNat % 16 = c.toNat from by omega]
    rw [if_pos (Or.inl (by omega : c.toNat < 0xd800))]
    rw [Char.ofNat_toNat]
    simp
  · have he : escapeChar c = [c] := by
      simp [escapeChar, h1, h2, h3, h4, h5, hc]
    rw [he]
    have hge : ¬ c.toNat < 0x20 := by
      simp [isRustControl] at hc
      omega
    exact jsonUnescape_plain c rest h2 h1 hge

/-- Decoding inverts escaping character by character. -/
lemma jsonUnescape_escape_list (l : List Char) :
    jsonUnescape ((l.map escapeChar).flatten) = some l := by
  induction l with
  | nil => rfl
  | cons c l ih =>
    simp only [List.map_cons, List.flatten_cons]
    rw [jsonUnescape_escapeChar c ((l.map escapeChar).flatten), ih]
    rfl

/-- C5: for every input string — in particular any path containing a double
quote, a backslash and a newline — escaping with `json_escape` and then
decoding with the standard JSON string decoder reconstructs the original
string exactly. -/
theorem C5_json_escape_round_trip (s : String) :
    (jsonUnescape (json_escape s).toList).map (fun l => (⟨l⟩ : String)) = some s := by
  have h := jsonUnescape_escape_list s.data
  show (jsonUnescape ((s.data.map escapeChar).flatten)).map (fun l => (⟨l⟩ : String)) = some s
  rw [h]
  rfl
